import Mathlib

/-!
Shallow embedding of the KM24 agent backend's validation/translation pipeline
(`src/backend/main.py`) and of the KM24 API client (`src/backend/km24_client.py`).

Python values appearing as filter values are modelled by `PyVal`; HTTP calls to
the upstream platform are modelled by an environment record that fixes the
outcome of each call, and functions return, alongside their `Except` result,
the trace of platform calls they performed.
-/

/-- A Python value as it may appear as a filter value in the `filters` mapping. -/
inductive PyVal where
  | str (s : String)
  | int (n : Int)
  | bool (b : Bool)
  | list (xs : List PyVal)
  | none
deriving Repr

/-- Python truthiness (`if filter_value`) for the modelled values:
empty string, zero, `False`, empty list and `None` are falsy. -/
def PyVal.truthy : PyVal → Bool
  | .str s => s ≠ ""
  | .int n => n ≠ 0
  | .bool b => b
  | .list xs => !xs.isEmpty
  | .none => false

/-- `isinstance(filter_value, list)`. -/
def PyVal.isList : PyVal → Bool
  | .list _ => true
  | _ => false

/-- `values = [filter_value] if not isinstance(filter_value, list) else filter_value`
(main.py line 267). -/
def normalizeValue (v : PyVal) : List PyVal :=
  match v with
  | .list xs => xs
  | v => [v]

/-- One entry of a module's `parts` list, as accessed by the pipeline:
`p["slug"]` and `p["id"]` (main.py line 260). -/
structure ModulePart where
  id : Int
  slug : String
deriving Repr, DecidableEq

/-- One translated filter part, `{"modulePartId": ..., "values": ...}`
(main.py lines 268-271). -/
structure StepPart where
  modulePartId : Int
  values : List PyVal
deriving Repr

/-- Lookup in the dict built by `part_map = {p["slug"]: p["id"] for p in module.parts}`
(main.py line 260): a later entry with the same slug overwrites an earlier one,
so the last occurrence wins. -/
def partMapLookup (parts : List ModulePart) (slug : String) : Option Int :=
  match parts with
  | [] => Option.none
  | p :: rest =>
    match partMapLookup rest slug with
    | some i => some i
    | Option.none => if p.slug == slug then some p.id else Option.none

/-- The filter-translation loop of `validate_filters_with_km24`
(main.py lines 263-271): for each `(filter_name, filter_value)` pair in
insertion order, emit a `StepPart` when the value is truthy and the slug is a
key of `part_map`, and skip the pair otherwise. -/
def translateFilters (parts : List ModulePart) : List (String × PyVal) → List StepPart
  | [] => []
  | (name, value) :: rest =>
    if value.truthy then
      match partMapLookup parts name with
      | some pid => { modulePartId := pid, values := normalizeValue value } :: translateFilters parts rest
      | Option.none => translateFilters parts rest
    else translateFilters parts rest

/-- A Python exception as surfaced by the modelled code paths. -/
inductive PyExc where
  | httpStatusError (status : Nat) (msg : String)
  | requestError (msg : String)
  | httpException (status : Nat) (detail : String)
deriving Repr, DecidableEq

/-- `str(e)` for the modelled exceptions. -/
def strOfExc : PyExc → String
  | .httpStatusError _ msg => msg
  | .requestError msg => msg
  | .httpException _ detail => detail

/-- The JSON body of a module response: `data["id"]`, `data["title"]`,
`data.get("emoji", "📊")`, `data.get("description")`, `data.get("parts", [])`. -/
structure ModuleJson where
  id : Int
  title : String
  emoji : Option String
  description : Option String
  parts : Option (List ModulePart)
deriving Repr

/-- The `KM24Module` pydantic model (km24_client.py lines 17-23). -/
structure KM24Module where
  id : Int
  title : String
  emoji : String
  description : Option String
  parts : List ModulePart
deriving Repr

/-- The parse performed by `get_modules` (km24_client.py lines 68-76): the
`parts` field keeps its default `[]`, since the list endpoint does not set it. -/
def parseModuleSummary (m : ModuleJson) : KM24Module :=
  { id := m.id
    title := m.title
    emoji := m.emoji.getD "📊"
    description := m.description
    parts := [] }

/-- The parse performed by `get_module` (km24_client.py lines 101-107),
including `parts=data.get("parts", [])`. -/
def parseModuleDetail (m : ModuleJson) : KM24Module :=
  { id := m.id
    title := m.title
    emoji := m.emoji.getD "📊"
    description := m.description
    parts := m.parts.getD [] }

/-- One raw hit from the hits payload, with each field optional since the code
reads them all with `.get` (main.py lines 298-302). -/
structure RawHit where
  title : Option String
  hitDatetime : Option String
  summary : Option String
  description : Option String
  url : Option String
deriving Repr

/-- The `Hit` pydantic model (main.py lines 120-125). -/
structure Hit where
  title : String
  date : Option String
  summary : Option String
  url : Option String
deriving Repr

/-- The projection of one raw hit (main.py lines 298-303):
`title=hit.get("title", "Untitled")`, `date=hit.get("hitDatetime")`,
`summary=hit.get("summary", hit.get("description", ""))`, `url=hit.get("url")`. -/
def projectHit (h : RawHit) : Hit :=
  { title := h.title.getD "Untitled"
    date := h.hitDatetime
    summary := some (h.summary.getD (h.description.getD ""))
    url := h.url }

/-- The hits payload: `hits_data.get("count", 0)` and `hits_data.get("items", [])`. -/
structure HitsJson where
  count : Option Nat
  items : Option (List RawHit)
deriving Repr

/-- The `ValidationResult` pydantic model (main.py lines 128-134). -/
structure ValidationResult where
  is_valid : Bool
  sample_hits : List Hit
  hit_count : Nat
  warnings : List String
  suggestions : List String
deriving Repr

/-- The warnings/suggestions classification of `validate_filters_with_km24`
(main.py lines 313-321). -/
def classify (hit_count : Nat) : List String × List String :=
  if hit_count = 0 then
    (["Ingen hits fundet med disse filtre"],
     ["Prøv at udvide søgningen ved at fjerne nogle filtre"])
  else if hit_count > 100 then
    (["Meget høj hitrate (" ++ toString hit_count ++ " hits)"],
     ["Overvej at indsnævre med flere specifikke filtre"])
  else ([], [])

/-- A call made to the KM24 platform during one pipeline run. -/
inductive Event where
  | getModuleCall (moduleId : Int)
  | createStepCall (moduleId : Int) (parts : List StepPart)
  | getHitsCall (stepId : Int)
  | deleteStepCall (stepId : Int)
deriving Repr

def Event.isGetModuleCall : Event → Bool
  | .getModuleCall _ => true
  | _ => false

def Event.isCreateStepCall : Event → Bool
  | .createStepCall _ _ => true
  | _ => false

def Event.isGetHitsCall : Event → Bool
  | .getHitsCall _ => true
  | _ => false

def Event.isDeleteStepCall : Event → Bool
  | .deleteStepCall _ => true
  | _ => false

/-- The outcomes of the (at most four) upstream calls a validation run can
make: module fetch, step creation (yielding `step["id"]`), hit fetch, and step
deletion. -/
structure Env where
  moduleRes : Except PyExc ModuleJson
  createRes : Except PyExc Int
  hitsRes : Except PyExc HitsJson
  deleteRes : Except PyExc Unit

/-- The wrapping performed by the `except Exception` clause of
`validate_filters_with_km24` (main.py lines 331-333):
`raise HTTPException(status_code=500, detail=f"Failed to validate filters: {str(e)}")`. -/
def wrapValidate (e : PyExc) : PyExc :=
  .httpException 500 ("Failed to validate filters: " ++ strOfExc e)

/-- The early return of `validate_filters_with_km24` when no parts were built
(main.py lines 273-280). -/
def noFilterResult : ValidationResult :=
  { is_valid := false
    sample_hits := []
    hit_count := 0
    warnings := ["Ingen filtre valgt"]
    suggestions := ["Tilføj mindst ét filter for at indsnævre søgningen"] }

/-- `validate_filters_with_km24(module_id, filters)` (main.py lines 248-333):
fetch the module, translate the filters, short-circuit when no parts survive,
otherwise create a temporary step, fetch its hits, project at most three sample
hits, delete the step, and classify the hit count.  Any exception from an
upstream call reaches the outer `except` clause and is re-raised wrapped via
`wrapValidate`.  The second component is the trace of platform calls made. -/
def validateFilters (env : Env) (moduleId : Int) (filters : List (String × PyVal)) :
    Except PyExc ValidationResult × List Event :=
  match env.moduleRes with
  | .error e => (.error (wrapValidate e), [.getModuleCall moduleId])
  | .ok data =>
    let module := parseModuleDetail data
    let parts := translateFilters module.parts filters
    if parts.isEmpty then
      (.ok noFilterResult, [.getModuleCall moduleId])
    else
      match env.createRes with
      | .error e =>
        (.error (wrapValidate e),
         [.getModuleCall moduleId, .createStepCall moduleId parts])
      | .ok stepId =>
        match env.hitsRes with
        | .error e =>
          (.error (wrapValidate e),
           [.getModuleCall moduleId, .createStepCall moduleId parts,
            .getHitsCall stepId])
        | .ok hitsData =>
          let sample_hits := ((hitsData.items.getD []).take 3).map projectHit
          let hit_count := hitsData.count.getD 0
          match env.deleteRes with
          | .error e =>
            (.error (wrapValidate e),
             [.getModuleCall moduleId, .createStepCall moduleId parts,
              .getHitsCall stepId, .deleteStepCall stepId])
          | .ok _ =>
            (.ok { is_valid := decide (0 < hit_count)
                   sample_hits := sample_hits
                   hit_count := hit_count
                   warnings := (classify hit_count).1
                   suggestions := (classify hit_count).2 },
             [.getModuleCall moduleId, .createStepCall moduleId parts,
              .getHitsCall stepId, .deleteStepCall stepId])

/-- Python's `xs[:limit]` for an `int` limit: a non-negative limit keeps the
first `limit` elements; a negative limit drops `-limit` elements from the end. -/
def pySliceTo (limit : Int) (xs : List Hit) : List Hit :=
  if 0 ≤ limit then xs.take limit.toNat
  else xs.take (xs.length - (-limit).toNat)

/-- The `search_hits` endpoint (main.py lines 394-412): it reuses
`validate_filters_with_km24` and returns `validation.sample_hits[:request.limit]`;
an `HTTPException` from validation is re-raised unchanged. -/
def search_hits (env : Env) (moduleId : Int) (filters : List (String × PyVal))
    (limit : Int) : Except PyExc (List Hit) × List Event :=
  match validateFilters env moduleId filters with
  | (.ok r, tr) => (.ok (pySliceTo limit r.sample_hits), tr)
  | (.error e, tr) => (.error e, tr)

/-- The client's module-list cache, `self._modules_cache` (km24_client.py line 44). -/
structure ClientState where
  modulesCache : Option (List KM24Module)
deriving Repr

/-- Truthiness of `self._modules_cache` (km24_client.py line 60): falsy when
`None` and when the empty list. -/
def cacheTruthy : Option (List KM24Module) → Bool
  | Option.none => false
  | some ms => !ms.isEmpty

/-- `KM24Client.get_modules(force_refresh)` (km24_client.py lines 50-84):
return the cache when it is truthy and no refresh is forced; otherwise fetch
`/modules/basic`, parse `data.get("items", [])`, replace the cache, and return
the fresh list, propagating any fetch error with the cache unchanged.  The
third component counts upstream calls made (0 or 1). -/
def get_modules (st : ClientState) (forceRefresh : Bool)
    (apiRes : Except PyExc (List ModuleJson)) :
    Except PyExc (List KM24Module) × ClientState × Nat :=
  if cacheTruthy st.modulesCache && !forceRefresh then
    (.ok (st.modulesCache.getD []), st, 0)
  else
    match apiRes with
    | .error e => (.error e, st, 1)
    | .ok items =>
      let modules := items.map parseModuleSummary
      (.ok modules, { modulesCache := some modules }, 1)

/-- `KM24Client.get_module(module_id)` (km24_client.py lines 86-114): always
fetch `/modules/basic/{module_id}` and parse the response including its parts;
the cache is neither read nor written.  The third component counts upstream
calls made. -/
def get_module (st : ClientState) (moduleId : Int)
    (apiRes : Except PyExc ModuleJson) :
    Except PyExc KM24Module × ClientState × Nat :=
  match apiRes with
  | .error e => (.error e, st, 1)
  | .ok data => (.ok (parseModuleDetail data), st, 1)

/-- A concrete module-parts list used by the concrete instances below. -/
def demoParts : List ModulePart := [⟨134, "kommune"⟩, ⟨135, "branche"⟩]

/-- A concrete module-detail payload for module 110. -/
def demoModuleJson : ModuleJson :=
  { id := 110, title := "Arbejdstilsyn", emoji := Option.none,
    description := Option.none, parts := some demoParts }

/-- A concrete filter mapping with one matching, truthy entry. -/
def demoFilters : List (String × PyVal) := [("kommune", .str "København")]

/-- A concrete raw hit without a `title` and without a `summary`. -/
def demoRawHit : RawHit :=
  { title := Option.none, hitDatetime := some "2024-05-01T08:00:00",
    summary := Option.none, description := some "Påbud om stillads",
    url := some "https://example.dk/1" }

/-- A concrete hits payload with `count` 5 and one item. -/
def demoHits : HitsJson := { count := some 5, items := some [demoRawHit] }

/-- An environment in which all four upstream calls succeed. -/
def envAllOk : Env :=
  { moduleRes := .ok demoModuleJson, createRes := .ok 7,
    hitsRes := .ok demoHits, deleteRes := .ok () }

/-- Environment for the C5 witness: all calls succeed and the hit count is 101,
the first value past the high-hit-rate boundary. -/
def envCount101 : Env :=
  { envAllOk with hitsRes := .ok { count := some 101, items := some [demoRawHit] } }

/-- The verdict produced by the run of `envCount101`. -/
def demoVerdict101 : ValidationResult :=
  { is_valid := true
    sample_hits := [{ title := "Untitled", date := some "2024-05-01T08:00:00",
                      summary := some "Påbud om stillads",
                      url := some "https://example.dk/1" }]
    hit_count := 101
    warnings := ["Meget høj hitrate (101 hits)"]
    suggestions := ["Overvej at indsnævre med flere specifikke filtre"] }

/-- A concrete filter mapping exercising all translation cases: a matching
scalar, a matching list, an unknown slug, and a falsy value. -/
def demoFiltersMixed : List (String × PyVal) :=
  [("kommune", .str "København"),
   ("branche", .list [.str "Byggeri", .str "Transport"]),
   ("soegeord", .str "asbest"),
   ("tom", .str "")]

/-- The verdict produced by the run of `envAllOk` (count 5, one raw hit). -/
def demoVerdict5 : ValidationResult :=
  { is_valid := true
    sample_hits := [{ title := "Untitled", date := some "2024-05-01T08:00:00",
                      summary := some "Påbud om stillads",
                      url := some "https://example.dk/1" }]
    hit_count := 5
    warnings := []
    suggestions := [] }

/-- Environment in which the step is created but the hit fetch fails. -/
def envHitsFail : Env :=
  { envAllOk with hitsRes := .error (.httpStatusError 500 "Internal Server Error") }

/-- Environment in which everything succeeds except the final step deletion. -/
def envDeleteFail : Env :=
  { envAllOk with deleteRes := .error (.httpStatusError 500 "Internal Server Error") }

/-- Environment in which the module fetch fails with a 404. -/
def env404 : Env :=
  { envAllOk with moduleRes := .error (.httpStatusError 404 "404 Not Found") }

/-- Environment in which the module fetch fails with a 503. -/
def env503 : Env :=
  { envAllOk with moduleRes := .error (.httpStatusError 503 "503 Service Unavailable") }

/-- The HTTP status carried by a pipeline outcome's error, if any. -/
def excStatus : Except PyExc ValidationResult → Option Nat
  | .error (.httpStatusError s _) => some s
  | .error (.httpException s _) => some s
  | .error (.requestError _) => Option.none
  | .ok _ => Option.none

/-- No platform operation is attempted more than once in one run. -/
def noRetryTrace (tr : List Event) : Prop :=
  tr.countP Event.isGetModuleCall ≤ 1
  ∧ tr.countP Event.isCreateStepCall ≤ 1
  ∧ tr.countP Event.isGetHitsCall ≤ 1
  ∧ tr.countP Event.isDeleteStepCall ≤ 1

/-! ### Supporting lemmas -/

theorem partMapLookup_isSome (parts : List ModulePart) (s : String) :
    (partMapLookup parts s).isSome = parts.any fun p => p.slug == s := by
  induction parts with
  | nil => rfl
  | cons p rest ih =>
    simp only [partMapLookup, List.any_cons]
    cases h : partMapLookup rest s with
    | none =>
      have hra : (rest.any fun p => p.slug == s) = false := by
        rw [← ih, h]; rfl
      rw [hra, Bool.or_false]
      by_cases hs : (p.slug == s) = true
      · rw [if_pos hs, hs]; rfl
      · rw [if_neg hs, Bool.not_eq_true] at *
        rw [hs]; rfl
    | some i =>
      have hra : (rest.any fun p => p.slug == s) = true := by
        rw [← ih, h]; rfl
      rw [hra, Bool.or_true]
      rfl

theorem length_filter_mono {α : Type} (l : List α) (p q : α → Bool)
    (h : ∀ a, p a = true → q a = true) :
    (l.filter p).length ≤ (l.filter q).length := by
  induction l with
  | nil => simp
  | cons a l ih =>
    by_cases hp : p a = true
    · simp [List.filter_cons, hp, h a hp, Nat.succ_le_succ ih]
    · simp only [List.filter_cons, Bool.not_eq_true] at *
      simp only [hp, Bool.false_eq_true, if_false]
      cases hq : q a <;> simp [hq]
      · exact ih
      · exact Nat.le_succ_of_le ih

theorem pySliceTo_length_le (limit : Int) (xs : List Hit) :
    (pySliceTo limit xs).length ≤ xs.length := by
  unfold pySliceTo
  split <;> simp [List.length_take]

theorem validate_ok_sample_le3 (env : Env) (moduleId : Int)
    (filters : List (String × PyVal)) (r : ValidationResult)
    (h : (validateFilters env moduleId filters).1 = .ok r) :
    r.sample_hits.length ≤ 3 := by
  rcases env with ⟨mres, cres, hres, dres⟩
  cases mres with
  | error e => simp [validateFilters] at h
  | ok data =>
    by_cases hp : (translateFilters (parseModuleDetail data).parts filters).isEmpty
    · simp [validateFilters, hp] at h
      simp [← h, noFilterResult]
    · cases cres with
      | error e => simp [validateFilters, hp] at h
      | ok stepId =>
        cases hres with
        | error e => simp [validateFilters, hp] at h
        | ok hd =>
          cases dres with
          | error e => simp [validateFilters, hp] at h
          | ok u =>
            simp [validateFilters, hp] at h
            rw [← h]
            simp [List.length_take]

theorem translateFilters_eq (parts : List ModulePart) (filters : List (String × PyVal)) :
    translateFilters parts filters
      = (filters.filter fun p => p.2.truthy && (partMapLookup parts p.1).isSome).map
          fun p => { modulePartId := (partMapLookup parts p.1).getD 0,
                     values := normalizeValue p.2 } := by
  induction filters with
  | nil => rfl
  | cons a rest ih =>
    rcases a with ⟨name, value⟩
    by_cases ht : value.truthy = true
    · cases hl : partMapLookup parts name with
      | none => simp [translateFilters, ht, hl, List.filter_cons, ih]
      | some pid => simp [translateFilters, ht, hl, List.filter_cons, ih]
    · rw [Bool.not_eq_true] at ht
      simp [translateFilters, ht, List.filter_cons, ih]

/-! ### Claims -/

/-- C4: when the module fetch succeeds but translation yields no parts,
`validate_filters_with_km24` returns immediately with `is_valid=false`,
`hit_count=0`, no sample hits, exactly the one warning and the one suggestion
of the short-circuit branch, and its call trace consists of the module fetch
alone — no `create_step`, `get_step_hits` or `delete_step` call is made. -/
theorem validate_empty_translation_short_circuits
    (env : Env) (moduleId : Int) (filters : List (String × PyVal))
    (data : ModuleJson) (hm : env.moduleRes = .ok data)
    (he : translateFilters (parseModuleDetail data).parts filters = []) :
    validateFilters env moduleId filters =
      (.ok { is_valid := false, sample_hits := [], hit_count := 0,
             warnings := ["Ingen filtre valgt"],
             suggestions := ["Tilføj mindst ét filter for at indsnævre søgningen"] },
       [Event.getModuleCall moduleId]) := by
  have hbe : (translateFilters (parseModuleDetail data).parts filters).isEmpty = true := by
    rw [he]; rfl
  simp [validateFilters, hm, hbe, noFilterResult]

/-- Witness for C4 at a concrete input: the module has parts, but the single
filter key matches none of them. -/
theorem validate_empty_translation_short_circuits_witness :
    validateFilters { envAllOk with moduleRes := .ok demoModuleJson } 110
        [("soegeord", .str "asbest")] =
      (.ok { is_valid := false, sample_hits := [], hit_count := 0,
             warnings := ["Ingen filtre valgt"],
             suggestions := ["Tilføj mindst ét filter for at indsnævre søgningen"] },
       [Event.getModuleCall 110]) :=
  validate_empty_translation_short_circuits _ 110 _ demoModuleJson rfl rfl

/-- C5: on a run in which all four upstream calls succeed and translation was
non-empty, the returned verdict has `hit_count` equal to the fetched count,
`is_valid` true exactly when that count is positive, the "no hits" warning and
suggestion exactly at count 0, no warnings or suggestions for counts 1 through
100, and the "high hit rate" warning (containing the count) with its suggestion
from count 101 upwards. -/
theorem validate_classification_boundaries
    (env : Env) (moduleId : Int) (filters : List (String × PyVal))
    (data : ModuleJson) (stepId : Int) (hd : HitsJson) (r : ValidationResult)
    (hm : env.moduleRes = .ok data) (hc : env.createRes = .ok stepId)
    (hh : env.hitsRes = .ok hd) (hdel : env.deleteRes = .ok ())
    (hne : translateFilters (parseModuleDetail data).parts filters ≠ [])
    (hr : (validateFilters env moduleId filters).1 = .ok r) :
    r.hit_count = hd.count.getD 0
    ∧ (r.is_valid = true ↔ 0 < r.hit_count)
    ∧ (r.hit_count = 0 →
        r.warnings = ["Ingen hits fundet med disse filtre"]
        ∧ r.suggestions = ["Prøv at udvide søgningen ved at fjerne nogle filtre"])
    ∧ (1 ≤ r.hit_count → r.hit_count ≤ 100 →
        r.warnings = [] ∧ r.suggestions = [])
    ∧ (101 ≤ r.hit_count →
        r.warnings = ["Meget høj hitrate (" ++ toString r.hit_count ++ " hits)"]
        ∧ r.suggestions = ["Overvej at indsnævre med flere specifikke filtre"]) := by
  have hbe : (translateFilters (parseModuleDetail data).parts filters).isEmpty = false := by
    cases hx : translateFilters (parseModuleDetail data).parts filters with
    | nil => exact absurd hx hne
    | cons a l => rfl
  have hrr : r = { is_valid := decide (0 < hd.count.getD 0)
                   sample_hits := ((hd.items.getD []).take 3).map projectHit
                   hit_count := hd.count.getD 0
                   warnings := (classify (hd.count.getD 0)).1
                   suggestions := (classify (hd.count.getD 0)).2 } := by
    rcases env with ⟨mres, cres, hres, dres⟩
    simp only at hm hc hh hdel
    subst hm; subst hc; subst hh; subst hdel
    simp [validateFilters, hbe] at hr
    rw [← hr]
    simp [List.map_take]
  have hcount : r.hit_count = hd.count.getD 0 := by rw [hrr]
  have hwarn : r.warnings = (classify (hd.count.getD 0)).1 := by rw [hrr]
  have hsugg : r.suggestions = (classify (hd.count.getD 0)).2 := by rw [hrr]
  have hvalid : r.is_valid = decide (0 < hd.count.getD 0) := by rw [hrr]
  refine ⟨hcount, ?_, ?_, ?_, ?_⟩
  · rw [hvalid, hcount]; simp
  · intro h0
    rw [hcount] at h0
    rw [hwarn, hsugg]
    simp only [classify, if_pos h0]
    exact ⟨trivial, trivial⟩
  · intro h1 h100
    rw [hcount] at h1 h100
    have hn0 : ¬ (hd.count.getD 0 = 0) := by omega
    have hn100 : ¬ (hd.count.getD 0 > 100) := by omega
    rw [hwarn, hsugg]
    simp only [classify, if_neg hn0, if_neg hn100]
    exact ⟨trivial, trivial⟩
  · intro h101
    rw [hcount] at h101
    have hn0 : ¬ (hd.count.getD 0 = 0) := by omega
    have h100 : hd.count.getD 0 > 100 := by omega
    rw [hwarn, hsugg, hcount]
    simp only [classify, if_neg hn0, if_pos h100]
    exact ⟨trivial, trivial⟩

/-- Witness for C5 at hit count 101. -/
theorem validate_classification_boundaries_witness :
    demoVerdict101.hit_count = (101 : Nat)
    ∧ (demoVerdict101.is_valid = true ↔ 0 < demoVerdict101.hit_count)
    ∧ (demoVerdict101.hit_count = 0 →
        demoVerdict101.warnings = ["Ingen hits fundet med disse filtre"]
        ∧ demoVerdict101.suggestions = ["Prøv at udvide søgningen ved at fjerne nogle filtre"])
    ∧ (1 ≤ demoVerdict101.hit_count → demoVerdict101.hit_count ≤ 100 →
        demoVerdict101.warnings = [] ∧ demoVerdict101.suggestions = [])
    ∧ (101 ≤ demoVerdict101.hit_count →
        demoVerdict101.warnings = ["Meget høj hitrate (" ++ toString demoVerdict101.hit_count ++ " hits)"]
        ∧ demoVerdict101.suggestions = ["Overvej at indsnævre med flere specifikke filtre"]) :=
  validate_classification_boundaries envCount101 110 demoFilters demoModuleJson 7
    { count := some 101, items := some [demoRawHit] } demoVerdict101 rfl rfl rfl rfl
    (fun h => nomatch h) rfl

/-- C6: translation emits exactly one `StepPart` per `(slug, value)` pair whose
value is truthy and whose slug is a key of the part map, skipping every other
pair; a non-list value is wrapped in a one-element list while a list value
passes through unchanged; emission follows the insertion order of the input
mapping; and for a mapping with distinct keys the output length is at most the
number of distinct slugs present in both the input and the module's parts. -/
theorem translateFilters_spec (parts : List ModulePart) (filters : List (String × PyVal))
    (hnd : (filters.map Prod.fst).Nodup) :
    (translateFilters parts filters
      = (filters.filter fun p => p.2.truthy && (partMapLookup parts p.1).isSome).map
          fun p => { modulePartId := (partMapLookup parts p.1).getD 0,
                     values := normalizeValue p.2 })
    ∧ (∀ v : PyVal, v.isList = false → normalizeValue v = [v])
    ∧ (∀ xs : List PyVal, normalizeValue (.list xs) = xs)
    ∧ (translateFilters parts filters).length
        ≤ ((filters.map Prod.fst).filter fun s => parts.any fun p => p.slug == s).dedup.length := by
  refine ⟨translateFilters_eq parts filters, ?_, fun xs => rfl, ?_⟩
  · intro v hv
    cases v
    case list xs => simp [PyVal.isList] at hv
    all_goals rfl
  · have hdd : ((filters.map Prod.fst).filter fun s => parts.any fun p => p.slug == s).dedup
        = (filters.map Prod.fst).filter fun s => parts.any fun p => p.slug == s :=
      List.dedup_eq_self.mpr (hnd.filter _)
    rw [hdd, translateFilters_eq, List.length_map]
    have hfm : ((filters.map Prod.fst).filter fun s => parts.any fun p => p.slug == s)
        = (filters.filter fun p => parts.any fun q => q.slug == p.1).map Prod.fst := by
      rw [List.filter_map]
      rfl
    rw [hfm, List.length_map]
    apply length_filter_mono
    intro a ha
    have h2 := (Bool.and_eq_true _ _).mp ha |>.2
    rw [partMapLookup_isSome] at h2
    exact h2

/-- Witness for C6 on `demoFiltersMixed`. -/
theorem translateFilters_spec_witness :
    (demoFiltersMixed.map Prod.fst).Nodup
    ∧ translateFilters demoParts demoFiltersMixed =
        [{ modulePartId := 134, values := [.str "København"] },
         { modulePartId := 135, values := [.str "Byggeri", .str "Transport"] }]
    ∧ normalizeValue (.str "København") = [.str "København"]
    ∧ normalizeValue (.list [.str "Byggeri", .str "Transport"])
        = [.str "Byggeri", .str "Transport"]
    ∧ (translateFilters demoParts demoFiltersMixed).length
        ≤ ((demoFiltersMixed.map Prod.fst).filter
            fun s => demoParts.any fun p => p.slug == s).dedup.length :=
  ⟨by decide,
   (translateFilters_spec demoParts demoFiltersMixed (by decide)).1.trans rfl,
   (translateFilters_spec demoParts demoFiltersMixed (by decide)).2.1 _ rfl,
   (translateFilters_spec demoParts demoFiltersMixed (by decide)).2.2.1 _,
   (translateFilters_spec demoParts demoFiltersMixed (by decide)).2.2.2⟩

/-- C7: on a run in which all four upstream calls succeed and translation was
non-empty, the verdict's `sample_hits` are exactly the first at-most-3 raw
items projected through `projectHit`, whose title defaults to "Untitled" when
the raw hit has none, and whose summary is the raw `summary` field, falling
back to the raw `description` field when `summary` is absent. -/
theorem validate_sample_hits_projection
    (env : Env) (moduleId : Int) (filters : List (String × PyVal))
    (data : ModuleJson) (stepId : Int) (hd : HitsJson) (r : ValidationResult)
    (hm : env.moduleRes = .ok data) (hc : env.createRes = .ok stepId)
    (hh : env.hitsRes = .ok hd) (hdel : env.deleteRes = .ok ())
    (hne : translateFilters (parseModuleDetail data).parts filters ≠ [])
    (hr : (validateFilters env moduleId filters).1 = .ok r) :
    r.sample_hits = ((hd.items.getD []).take 3).map projectHit
    ∧ r.sample_hits.length ≤ 3
    ∧ (∀ h : RawHit, h.title = Option.none → (projectHit h).title = "Untitled")
    ∧ (∀ h : RawHit, ∀ t, h.title = some t → (projectHit h).title = t)
    ∧ (∀ h : RawHit, ∀ s, h.summary = some s → (projectHit h).summary = some s)
    ∧ (∀ h : RawHit, h.summary = Option.none →
        (projectHit h).summary = some (h.description.getD "")) := by
  have hbe : (translateFilters (parseModuleDetail data).parts filters).isEmpty = false := by
    cases hx : translateFilters (parseModuleDetail data).parts filters with
    | nil => exact absurd hx hne
    | cons a l => rfl
  have hs : r.sample_hits = ((hd.items.getD []).take 3).map projectHit := by
    rcases env with ⟨mres, cres, hres, dres⟩
    simp only at hm hc hh hdel
    subst hm; subst hc; subst hh; subst hdel
    simp [validateFilters, hbe] at hr
    rw [← hr]
    simp [List.map_take]
  refine ⟨hs, ?_, ?_, ?_, ?_, ?_⟩
  · rw [hs, List.length_map]
    simp [List.length_take]
  · intro h ht; simp [projectHit, ht]
  · intro h t ht; simp [projectHit, ht]
  · intro h s hsm; simp [projectHit, hsm]
  · intro h hsm; simp [projectHit, hsm]

/-- Witness for C7: a run whose payload has one raw hit lacking both `title`
and `summary`. -/
theorem validate_sample_hits_projection_witness :
    demoVerdict5.sample_hits = ((demoHits.items.getD []).take 3).map projectHit
    ∧ demoVerdict5.sample_hits.length ≤ 3
    ∧ (projectHit demoRawHit).title = "Untitled"
    ∧ (projectHit demoRawHit).summary = some (demoRawHit.description.getD "") :=
  ⟨(validate_sample_hits_projection envAllOk 110 demoFilters demoModuleJson 7 demoHits
      demoVerdict5 rfl rfl rfl rfl (fun h => nomatch h) rfl).1,
   (validate_sample_hits_projection envAllOk 110 demoFilters demoModuleJson 7 demoHits
      demoVerdict5 rfl rfl rfl rfl (fun h => nomatch h) rfl).2.1,
   (validate_sample_hits_projection envAllOk 110 demoFilters demoModuleJson 7 demoHits
      demoVerdict5 rfl rfl rfl rfl (fun h => nomatch h) rfl).2.2.1 demoRawHit rfl,
   (validate_sample_hits_projection envAllOk 110 demoFilters demoModuleJson 7 demoHits
      demoVerdict5 rfl rfl rfl rfl (fun h => nomatch h) rfl).2.2.2.2.2 demoRawHit rfl⟩

/-- C9: whatever limit the caller requests, a successful `search_hits` call
returns at most 3 hits, because it slices the validation pipeline's
`sample_hits`, which is already truncated to 3 elements. -/
theorem search_hits_at_most_three
    (env : Env) (moduleId : Int) (filters : List (String × PyVal))
    (limit : Int) (hits : List Hit)
    (h : (search_hits env moduleId filters limit).1 = .ok hits) :
    hits.length ≤ 3 := by
  unfold search_hits at h
  cases hv : validateFilters env moduleId filters with
  | mk res tr =>
    rw [hv] at h
    cases res with
    | error e => simp at h
    | ok r =>
      simp at h
      have hle3 : r.sample_hits.length ≤ 3 :=
        validate_ok_sample_le3 env moduleId filters r (by rw [hv])
      rw [← h]
      exact le_trans (pySliceTo_length_le limit r.sample_hits) hle3

/-- Witness for C9: a request with limit 10 against the all-success
environment still returns a single-element (≤ 3) hit list. -/
theorem search_hits_at_most_three_witness :
    ([{ title := "Untitled", date := some "2024-05-01T08:00:00",
        summary := some "Påbud om stillads",
        url := some "https://example.dk/1" }] : List Hit).length ≤ 3 :=
  search_hits_at_most_three envAllOk 110 demoFilters 10 _ rfl

/-- C8: `get_modules` returns the cached list without an upstream call when
the cache is non-empty (truthy) and no refresh is forced; otherwise it makes
the upstream call and, on success, replaces the whole cache with the freshly
parsed list and returns it.  `get_module` makes its upstream call
unconditionally, its result does not depend on the cache, and a successful
response is parsed including its parts. -/
theorem get_modules_cache_policy
    (st : ClientState) (forceRefresh : Bool)
    (apiRes : Except PyExc (List ModuleJson))
    (moduleId : Int) (mres : Except PyExc ModuleJson) :
    (cacheTruthy st.modulesCache = true → forceRefresh = false →
        get_modules st forceRefresh apiRes = (.ok (st.modulesCache.getD []), st, 0))
    ∧ (cacheTruthy st.modulesCache = false ∨ forceRefresh = true →
        (get_modules st forceRefresh apiRes).2.2 = 1
        ∧ ∀ items, apiRes = .ok items →
            get_modules st forceRefresh apiRes =
              (.ok (items.map parseModuleSummary),
               { modulesCache := some (items.map parseModuleSummary) }, 1))
    ∧ (get_module st moduleId mres).2.2 = 1
    ∧ (∀ st' : ClientState, (get_module st moduleId mres).1 = (get_module st' moduleId mres).1)
    ∧ (∀ data, mres = .ok data →
        (get_module st moduleId mres).1 = .ok (parseModuleDetail data)) := by
  refine ⟨?_, ?_, ?_, ?_, ?_⟩
  · intro hct hf
    simp [get_modules, hct, hf]
  · intro hmiss
    have hcond : (cacheTruthy st.modulesCache && !forceRefresh) = false := by
      rcases hmiss with h | h <;> simp [h]
    constructor
    · cases apiRes <;> simp [get_modules, hcond]
    · intro items hi
      subst hi
      simp [get_modules, hcond]
  · cases mres <;> rfl
  · intro st'; cases mres <;> rfl
  · intro data hi; subst hi; rfl

/-- Witness for C8: a concrete warm cache is served with no upstream call, a
forced refresh replaces it with the freshly fetched list, and a fresh
`get_module` call parses the response including parts. -/
theorem get_modules_cache_policy_witness :
    get_modules { modulesCache := some [parseModuleSummary demoModuleJson] } false
        (.ok [demoModuleJson]) =
      (.ok [parseModuleSummary demoModuleJson],
       { modulesCache := some [parseModuleSummary demoModuleJson] }, 0)
    ∧ get_modules { modulesCache := some [parseModuleSummary demoModuleJson] } true
        (.ok [demoModuleJson]) =
      (.ok [parseModuleSummary demoModuleJson],
       { modulesCache := some [parseModuleSummary demoModuleJson] }, 1)
    ∧ (get_module { modulesCache := Option.none } 110 (.ok demoModuleJson)).1
        = .ok (parseModuleDetail demoModuleJson) :=
  ⟨(get_modules_cache_policy { modulesCache := some [parseModuleSummary demoModuleJson] }
      false (.ok [demoModuleJson]) 110 (.ok demoModuleJson)).1 rfl rfl,
   ((get_modules_cache_policy { modulesCache := some [parseModuleSummary demoModuleJson] }
      true (.ok [demoModuleJson]) 110 (.ok demoModuleJson)).2.1 (Or.inr rfl)).2
      [demoModuleJson] rfl,
   (get_modules_cache_policy { modulesCache := Option.none } false (.ok [demoModuleJson])
      110 (.ok demoModuleJson)).2.2.2.2 demoModuleJson rfl⟩

/-- C10: `get_module` leaves the client's module-list cache exactly as it was,
whether the upstream call succeeds or fails. -/
theorem get_module_preserves_cache
    (st : ClientState) (moduleId : Int) (res : Except PyExc ModuleJson) :
    (get_module st moduleId res).2.1 = st := by
  cases res <;> rfl

/-- C1: at a run where `create_step` succeeds (step id 7) and `get_step_hits`
raises, the call trace contains the create call but no delete call — the
temporary step is leaked on this exit path, and the caller receives the
wrapped HTTP 500 — contradicting guaranteed cleanup after successful step
creation. -/
theorem validate_hitsError_skips_delete :
    ((validateFilters envHitsFail 110 demoFilters).2.any Event.isCreateStepCall) = true
    ∧ ((validateFilters envHitsFail 110 demoFilters).2.any Event.isDeleteStepCall) = false
    ∧ (validateFilters envHitsFail 110 demoFilters).1
        = .error (.httpException 500 "Failed to validate filters: Internal Server Error") :=
  ⟨rfl, rfl, rfl⟩

/-- C2: at a run where module fetch, step creation and hit fetch all succeed
(count 5) but `delete_step` raises, the caller receives the wrapped HTTP 500
instead of the verdict that the identical run with a successful delete
returns — a cleanup failure propagates and overrides the primary outcome. -/
theorem validate_deleteError_overrides_outcome :
    (validateFilters envDeleteFail 110 demoFilters).1
      = .error (.httpException 500 "Failed to validate filters: Internal Server Error")
    ∧ (validateFilters envAllOk 110 demoFilters).1 = .ok demoVerdict5 :=
  ⟨rfl, rfl⟩

/-- C3 counterexample: a not-found failure of the module fetch is not
propagated unchanged — the caller receives an `HTTPException` with status 500
and a prefixed detail rather than the original 404 error — and its status is
identical to the status produced by a 503 upstream failure, so not-found is
not distinguished from other upstream failures. -/
theorem validate_error_not_unchanged_counterexample :
    (validateFilters env404 110 demoFilters).1
      = .error (.httpException 500 "Failed to validate filters: 404 Not Found")
    ∧ (validateFilters env404 110 demoFilters).1
        ≠ .error (.httpStatusError 404 "404 Not Found")
    ∧ excStatus (validateFilters env404 110 demoFilters).1 = some 500
    ∧ excStatus (validateFilters env404 110 demoFilters).1
        = excStatus (validateFilters env503 110 demoFilters).1 := by
  refine ⟨rfl, ?_, rfl, rfl⟩
  intro h
  exact absurd (Except.error.inj h) (by decide)

/-- C3 as amended: any failure of the module fetch, the step creation or the
hit fetch propagates to the caller as a single `HTTPException` with status 500
whose detail embeds the original error message (it is not left unchanged and
not-found is not distinguished), and no upstream operation is retried: each of
the four platform calls appears at most once in the trace of any run. -/
theorem validate_failure_propagation
    (env : Env) (moduleId : Int) (filters : List (String × PyVal)) :
    noRetryTrace (validateFilters env moduleId filters).2
    ∧ (∀ e, env.moduleRes = .error e →
        (validateFilters env moduleId filters).1 = .error (wrapValidate e))
    ∧ (∀ e data, env.moduleRes = .ok data →
        translateFilters (parseModuleDetail data).parts filters ≠ [] →
        env.createRes = .error e →
        (validateFilters env moduleId filters).1 = .error (wrapValidate e))
    ∧ (∀ e data stepId, env.moduleRes = .ok data →
        translateFilters (parseModuleDetail data).parts filters ≠ [] →
        env.createRes = .ok stepId → env.hitsRes = .error e →
        (validateFilters env moduleId filters).1 = .error (wrapValidate e)) := by
  refine ⟨?_, ?_, ?_, ?_⟩
  · rcases env with ⟨mres, cres, hres, dres⟩
    cases mres with
    | error e =>
      simp [validateFilters, noRetryTrace, List.countP_cons, List.countP_nil,
        Event.isGetModuleCall, Event.isCreateStepCall, Event.isGetHitsCall,
        Event.isDeleteStepCall]
    | ok data =>
      by_cases hbe : (translateFilters (parseModuleDetail data).parts filters).isEmpty = true
      · simp [validateFilters, hbe, noRetryTrace, List.countP_cons, List.countP_nil,
          Event.isGetModuleCall, Event.isCreateStepCall, Event.isGetHitsCall,
          Event.isDeleteStepCall]
      · rw [Bool.not_eq_true] at hbe
        cases cres with
        | error e =>
          simp [validateFilters, hbe, noRetryTrace, List.countP_cons, List.countP_nil,
            Event.isGetModuleCall, Event.isCreateStepCall, Event.isGetHitsCall,
            Event.isDeleteStepCall]
        | ok sid =>
          cases hres with
          | error e =>
            simp [validateFilters, hbe, noRetryTrace, List.countP_cons, List.countP_nil,
              Event.isGetModuleCall, Event.isCreateStepCall, Event.isGetHitsCall,
              Event.isDeleteStepCall]
          | ok hd =>
            cases dres with
            | error e =>
              simp [validateFilters, hbe, noRetryTrace, List.countP_cons, List.countP_nil,
                Event.isGetModuleCall, Event.isCreateStepCall, Event.isGetHitsCall,
                Event.isDeleteStepCall]
            | ok u =>
              simp [validateFilters, hbe, noRetryTrace, List.countP_cons, List.countP_nil,
                Event.isGetModuleCall, Event.isCreateStepCall, Event.isGetHitsCall,
                Event.isDeleteStepCall]
  · intro e he
    rcases env with ⟨mres, cres, hres, dres⟩
    simp only at he
    subst he
    simp [validateFilters]
  · intro e data hm hne hc
    rcases env with ⟨mres, cres, hres, dres⟩
    simp only at hm hc
    subst hm; subst hc
    have hbe : (translateFilters (parseModuleDetail data).parts filters).isEmpty = false := by
      cases hx : translateFilters (parseModuleDetail data).parts filters with
      | nil => exact absurd hx hne
      | cons a l => rfl
    simp [validateFilters, hbe]
  · intro e data stepId hm hne hc hh
    rcases env with ⟨mres, cres, hres, dres⟩
    simp only at hm hc hh
    subst hm; subst hc; subst hh
    have hbe : (translateFilters (parseModuleDetail data).parts filters).isEmpty = false := by
      cases hx : translateFilters (parseModuleDetail data).parts filters with
      | nil => exact absurd hx hne
      | cons a l => rfl
    simp [validateFilters, hbe]

/-- Witness for the amended C3: the all-success run makes no repeated call,
and a 404 module-fetch failure surfaces as the wrapped 500 error. -/
theorem validate_failure_propagation_witness :
    noRetryTrace (validateFilters envAllOk 110 demoFilters).2
    ∧ (validateFilters env404 110 demoFilters).1
        = .error (wrapValidate (.httpStatusError 404 "404 Not Found")) :=
  ⟨(validate_failure_propagation envAllOk 110 demoFilters).1,
   (validate_failure_propagation env404 110 demoFilters).2.1 _ rfl⟩
